import Mathlib

/-!
Verification development for the error-bridging core of the napi binding
crate (`crates/napi/src/error.rs`).  The Rust code is shallowly embedded:
raw handles (`napi_env`, `napi_value`, `napi_ref`) become `Nat` with `0`
playing the role of the null pointer, every foreign (`sys::`) call the code
makes is recorded in an explicit trace of `FCall` events, and the results
the foreign runtime hands back are supplied by a `Sys` oracle of functions,
so each embedded operation is a pure function of the oracle producing its
result together with the exact sequence of foreign calls the source issues.
-/

namespace Napi

/-- Modelled from the spec: the `Status` taxonomy (`crate::Status`, defined
outside the reviewed file).  The spec lists ok, invalid-argument,
object-expected, string-expected, function-expected, number-expected,
generic-failure, pending-exception, cancelled, "and other platform-defined
codes", with "an explicit catch-all for unrecognized codes". -/
inductive Status where
  | Ok
  | InvalidArg
  | ObjectExpected
  | StringExpected
  | FunctionExpected
  | NumberExpected
  | GenericFailure
  | PendingException
  | Cancelled
  | Unknown
deriving DecidableEq, Repr

/-- Modelled from the spec: the Rust `derive(Debug)` rendering of a `Status`
variant (used by `format!("{:?}", status)` in the source) is the variant's
name. -/
def statusDebug : Status → String
  | Status.Ok => "Ok"
  | Status.InvalidArg => "InvalidArg"
  | Status.ObjectExpected => "ObjectExpected"
  | Status.StringExpected => "StringExpected"
  | Status.FunctionExpected => "FunctionExpected"
  | Status.NumberExpected => "NumberExpected"
  | Status.GenericFailure => "GenericFailure"
  | Status.PendingException => "PendingException"
  | Status.Cancelled => "Cancelled"
  | Status.Unknown => "Unknown"

/-- Modelled from the spec: raw numeric status code `napi_ok`. -/
def napi_ok : Nat := 0

/-- Modelled from the spec: raw numeric status code `napi_invalid_arg`. -/
def napi_invalid_arg : Nat := 1

/-- Modelled from the spec: raw numeric status code `napi_object_expected`. -/
def napi_object_expected : Nat := 2

/-- Modelled from the spec: raw numeric status code `napi_string_expected`. -/
def napi_string_expected : Nat := 3

/-- Modelled from the spec: raw numeric status code `napi_function_expected`. -/
def napi_function_expected : Nat := 5

/-- Modelled from the spec: raw numeric status code `napi_number_expected`. -/
def napi_number_expected : Nat := 6

/-- Modelled from the spec: raw numeric status code `napi_generic_failure`. -/
def napi_generic_failure : Nat := 9

/-- Modelled from the spec: raw numeric status code `napi_pending_exception`. -/
def napi_pending_exception : Nat := 10

/-- Modelled from the spec: raw numeric status code `napi_cancelled`. -/
def napi_cancelled : Nat := 11

/-- Modelled from the spec: `Status::from(raw)` — the total, stable mapping
from raw numeric codes to the taxonomy, with a catch-all for unrecognized
codes. -/
def statusFrom (c : Nat) : Status :=
  if c = napi_ok then Status.Ok
  else if c = napi_invalid_arg then Status.InvalidArg
  else if c = napi_object_expected then Status.ObjectExpected
  else if c = napi_string_expected then Status.StringExpected
  else if c = napi_function_expected then Status.FunctionExpected
  else if c = napi_number_expected then Status.NumberExpected
  else if c = napi_generic_failure then Status.GenericFailure
  else if c = napi_pending_exception then Status.PendingException
  else if c = napi_cancelled then Status.Cancelled
  else Status.Unknown

/-- Which host error constructor a throwable wrapper invokes:
`JsError` uses `napi_create_error`, `JsTypeError` uses
`napi_create_type_error`, `JsRangeError` uses `napi_create_range_error`. -/
inductive ErrKind where
  | generic
  | typeError
  | rangeError
deriving DecidableEq, Repr

/-- One foreign (`sys::`) call issued by the embedded code.  For
`napi_create_string_utf8` the `contents` field records exactly the bytes
denoted by the `(pointer, length)` pair the source passes (so a length that
includes a trailing NUL byte shows up as a string ending in `"\x00"`). -/
inductive FCall where
  | createReference (env value initial_refcount : Nat)
  | deleteReference (env ref : Nat)
  | getReferenceValue (env ref : Nat)
  | getAndClearLastException (env : Nat)
  | createStringUtf8 (env : Nat) (contents : String)
  | createError (kind : ErrKind) (env code msg : Nat)
  | napiThrow (env value : Nat)
deriving DecidableEq, Repr

/-- The `Error` struct of `error.rs`: `status`, `reason`, and the two raw
fields `maybe_raw : sys::napi_ref` and `maybe_env : sys::napi_env`
(null pointers are `0`). -/
structure Error where
  status : Status
  reason : String
  maybe_raw : Nat
  maybe_env : Nat
deriving DecidableEq, Repr

/-- The oracle supplying the results of foreign calls: for each `sys::`
function the code uses, the status it returns and the out-parameter value it
writes, as functions of the arguments the code passes. -/
structure Sys where
  createReferenceStatus : Nat → Nat → Nat → Nat
  createReferenceResult : Nat → Nat → Nat → Nat
  getReferenceValueStatus : Nat → Nat → Nat
  getReferenceValueResult : Nat → Nat → Nat
  createStringStatus : Nat → String → Nat
  createStringResult : Nat → String → Nat
  createErrorStatus : ErrKind → Nat → Nat → Nat → Nat
  createErrorResult : ErrKind → Nat → Nat → Nat → Nat
  getAndClearStatus : Nat → Nat
  getAndClearResult : Nat → Nat
  throwStatus : Nat → Nat → Nat

/-- `Error::new(status, reason)`: both raw fields are `ptr::null_mut()`. -/
def Error.new (status : Status) (reason : String) : Error :=
  { status := status, reason := reason, maybe_raw := 0, maybe_env := 0 }

/-- `Error::from_status(status)`: empty reason, null raw fields. -/
def Error.from_status (status : Status) : Error :=
  { status := status, reason := "", maybe_raw := 0, maybe_env := 0 }

/-- `Error::from_reason(reason)`: status fixed to `GenericFailure`, null raw
fields. -/
def Error.from_reason (reason : String) : Error :=
  { status := Status.GenericFailure, reason := reason, maybe_raw := 0, maybe_env := 0 }

/-- `derive(Clone)` on `Error`: a field-wise copy; the raw pointer fields
`maybe_raw`/`maybe_env` are copied as-is. -/
def Error.clone (e : Error) : Error := e

/-- The foreign calls made by `derive(Clone)`'s `clone`: none (cloning a
`String` and copying raw pointers involves no `sys::` call). -/
def Error.cloneCalls (_e : Error) : List FCall := []

/-- The foreign calls made by `impl Drop for Error` (non-`noop` build): if
both `maybe_env` and `maybe_raw` are non-null, one
`napi_delete_reference(maybe_env, maybe_raw)`; otherwise none.  The
`debug_assert!` on the returned status does not alter the call sequence. -/
def Error.dropCalls (e : Error) : List FCall :=
  if e.maybe_env ≠ 0 ∧ e.maybe_raw ≠ 0 then
    [FCall.deleteReference e.maybe_env e.maybe_raw]
  else []

/-- `impl fmt::Display for Error`: if the reason is non-empty, write
`"{:?}, {}"` of status and reason, else `"{:?}"` of the status alone. -/
def Error.display (e : Error) : String :=
  if e.reason ≠ "" then statusDebug e.status ++ ", " ++ e.reason
  else statusDebug e.status

/-- The `Value { env, value }` payload of a `JsUnknown`. -/
structure JsUnknown where
  env : Nat
  value : Nat
deriving DecidableEq, Repr

/-- `impl From<JsUnknown> for Error`: calls
`napi_create_reference(value.0.env, value.0.value, 0, &mut result)`; if the
returned status is not `napi_ok`, returns
`Error::new(Status::from(status), "")`; otherwise returns an `Error` with
status `GenericFailure`, empty reason, `maybe_raw = result`,
`maybe_env = value.0.env`. -/
def Error.fromJsUnknown (sys : Sys) (value : JsUnknown) : Error × List FCall :=
  let status := sys.createReferenceStatus value.env value.value 0
  let result := sys.createReferenceResult value.env value.value 0
  let calls := [FCall.createReference value.env value.value 0]
  if status ≠ napi_ok then
    (Error.new (statusFrom status) "", calls)
  else
    ({ status := Status.GenericFailure, reason := "", maybe_raw := result,
       maybe_env := value.env }, calls)

/-- Modelled from the spec: the amount by which one foreign call increments
a value's retention count — `create_reference(context, value, initial_count)`
retains by its `initial_count`; no other call in this core retains. -/
def retentionIncrement : FCall → Nat
  | FCall.createReference _ _ n => n
  | _ => 0

/-- `into_value` from `impl_object_methods!` (shared by `JsError`,
`JsTypeError`, `JsRangeError`, parameterized by the `$kind` constructor): if
`maybe_raw` is non-null, resolve it with
`napi_get_reference_value(env, maybe_raw)` and return that handle (the
`debug_assert!` on the status does not branch); otherwise build the code
string from `format!("{:?}", status)`, the reason string from `reason`, and
call the variant's error constructor. -/
def JsError.into_value (sys : Sys) (kind : ErrKind) (e : Error) (env : Nat) :
    Nat × List FCall :=
  if e.maybe_raw ≠ 0 then
    (sys.getReferenceValueResult env e.maybe_raw,
     [FCall.getReferenceValue env e.maybe_raw])
  else
    let error_status := statusDebug e.status
    let error_code := sys.createStringResult env error_status
    let reason_string := sys.createStringResult env e.reason
    let js_error := sys.createErrorResult kind env error_code reason_string
    (js_error,
     [FCall.createStringUtf8 env error_status,
      FCall.createStringUtf8 env e.reason,
      FCall.createError kind env error_code reason_string])

/-- `throw_into` from `impl_object_methods!`: if `status` is
`PendingException`, return immediately (no foreign call); otherwise
materialize via `into_value` and call `napi_throw` — once under
`cfg(debug_assertions)` (to capture a status for the `assert!`) and once
unconditionally, so a debug build (`dbg = true`) issues two `napi_throw`
calls and a release build one. -/
def JsError.throw_into (sys : Sys) (dbg : Bool) (kind : ErrKind) (e : Error)
    (env : Nat) : List FCall :=
  if e.status = Status.PendingException then []
  else
    let iv := JsError.into_value sys kind e env
    iv.2 ++
      (if dbg then [FCall.napiThrow env iv.1, FCall.napiThrow env iv.1]
       else [FCall.napiThrow env iv.1])

/-- `throw` from `impl_object_methods!` (the `&self` method): always
synthesizes — it never consults `maybe_raw`.  The code string is built from
`format!("{:?}\0", status)` with `status_len = error_status.len()` taken
*after* appending the NUL, so the `(pointer, length)` pair passed to
`napi_create_string_utf8` denotes the debug rendering plus a trailing NUL
byte; `reason_len` is taken before the NUL is appended, so the reason bytes
are exact.  Each foreign call is wrapped in `check_status!` and `?`. -/
def JsError.throw (sys : Sys) (kind : ErrKind) (e : Error) (env : Nat) :
    Except Error Unit × List FCall :=
  let error_status := statusDebug e.status ++ "\x00"
  let c1 := sys.createStringStatus env error_status
  let calls1 := [FCall.createStringUtf8 env error_status]
  if c1 ≠ napi_ok then (Except.error (Error.new (statusFrom c1) ""), calls1)
  else
    let error_code := sys.createStringResult env error_status
    let c2 := sys.createStringStatus env e.reason
    let calls2 := calls1 ++ [FCall.createStringUtf8 env e.reason]
    if c2 ≠ napi_ok then (Except.error (Error.new (statusFrom c2) ""), calls2)
    else
      let reason_string := sys.createStringResult env e.reason
      let c3 := sys.createErrorStatus kind env error_code reason_string
      let calls3 := calls2 ++ [FCall.createError kind env error_code reason_string]
      if c3 ≠ napi_ok then (Except.error (Error.new (statusFrom c3) ""), calls3)
      else
        let js_error := sys.createErrorResult kind env error_code reason_string
        let c4 := sys.throwStatus env js_error
        let calls4 := calls3 ++ [FCall.napiThrow env js_error]
        if c4 ≠ napi_ok then (Except.error (Error.new (statusFrom c4) ""), calls4)
        else (Except.ok (), calls4)

/-- `impl ToNapiValue for Error`: if `maybe_raw` is null, convert through
`JsError::from(val).into_value(env)` (generic kind) and return it; otherwise
`check_status!(napi_get_reference_value(val.maybe_env, val.maybe_raw, ...))?`
— note the call uses the *stored* `maybe_env`, not the passed `env` — and
return the resolved value. -/
def Error.to_napi_value (sys : Sys) (env : Nat) (val : Error) :
    Except Error Nat × List FCall :=
  if val.maybe_raw = 0 then
    let iv := JsError.into_value sys ErrKind.generic val env
    (Except.ok iv.1, iv.2)
  else
    let c := sys.getReferenceValueStatus val.maybe_env val.maybe_raw
    let calls := [FCall.getReferenceValue val.maybe_env val.maybe_raw]
    if c ≠ napi_ok then (Except.error (Error.new (statusFrom c) ""), calls)
    else (Except.ok (sys.getReferenceValueResult val.maybe_env val.maybe_raw), calls)

/-- How evaluation of `check_pending_exception!` ends: `proceed` is the
`Ok(())` value, `earlyReturn e` is the non-local `return Err(e)` from the
enclosing function, `errValue e` is the expression evaluating to `Err(e)`
without early return, `assertFailed` is the `assert_eq!` panic when
`napi_get_and_clear_last_exception` does not return `napi_ok`. -/
inductive CheckOutcome where
  | proceed
  | earlyReturn (e : Error)
  | errValue (e : Error)
  | assertFailed
deriving DecidableEq, Repr

/-- The `check_pending_exception!` macro: on `napi_ok`, `Ok(())`; on
`napi_pending_exception`, call `napi_get_and_clear_last_exception`
(asserting it succeeds), wrap the retrieved value via
`Error::from(Unknown::from_raw_unchecked(env, error_result))` and `return`
the error (early return); on any other code, evaluate to
`Err(Error::new(Status::from(c), ""))`. -/
def check_pending_exception (sys : Sys) (env c : Nat) :
    CheckOutcome × List FCall :=
  if c = napi_ok then (CheckOutcome.proceed, [])
  else if c = napi_pending_exception then
    let clearStatus := sys.getAndClearStatus env
    let error_result := sys.getAndClearResult env
    let calls0 := [FCall.getAndClearLastException env]
    if clearStatus ≠ napi_ok then (CheckOutcome.assertFailed, calls0)
    else
      let fe := Error.fromJsUnknown sys { env := env, value := error_result }
      (CheckOutcome.earlyReturn fe.1, calls0 ++ fe.2)
  else (CheckOutcome.errValue (Error.new (statusFrom c) ""), [])

/-- `true` iff the trace contains no host error-constructor call — no new
exception object is synthesized along it. -/
def synthesizesNone (t : List FCall) : Bool :=
  t.all fun c =>
    match c with
    | FCall.createError _ _ _ _ => false
    | _ => true

/-- A concrete, everywhere-successful oracle used for concrete evaluations:
every foreign call reports `napi_ok`; created references are handle `7`,
reference resolution yields value `5`, created strings are value `11`,
created error objects are value `13`, the pending exception is value `17`. -/
def sysOk : Sys where
  createReferenceStatus := fun _ _ _ => napi_ok
  createReferenceResult := fun _ _ _ => 7
  getReferenceValueStatus := fun _ _ => napi_ok
  getReferenceValueResult := fun _ _ => 5
  createStringStatus := fun _ _ => napi_ok
  createStringResult := fun _ _ => 11
  createErrorStatus := fun _ _ _ _ => napi_ok
  createErrorResult := fun _ _ _ _ => 13
  getAndClearStatus := fun _ => napi_ok
  getAndClearResult := fun _ => 17
  throwStatus := fun _ _ => napi_ok

/-- Like `sysOk`, but `napi_create_reference` fails with
`napi_invalid_arg`. -/
def sysRefFail : Sys :=
  { sysOk with createReferenceStatus := fun _ _ _ => napi_invalid_arg }

/-- C1: the claim (exactly one release per retained handle; cloning either
acquires a second persistent reference or is disallowed) is violated by the
code.  At the concrete `Error` with retained handle `1` under env `1`:
`derive(Clone)` makes no foreign call (no second reference is acquired),
yet dropping the original and its clone issues `napi_delete_reference(1, 1)`
twice — the same handle is released twice. -/
theorem C1_clone_double_release :
    Error.cloneCalls
        { status := Status.GenericFailure, reason := "", maybe_raw := 1, maybe_env := 1 } = [] ∧
    Error.dropCalls
        { status := Status.GenericFailure, reason := "", maybe_raw := 1, maybe_env := 1 } ++
      Error.dropCalls (Error.clone
        { status := Status.GenericFailure, reason := "", maybe_raw := 1, maybe_env := 1 }) =
      [FCall.deleteReference 1 1, FCall.deleteReference 1 1] := by
  decide

/-- C2 counterexample: the claim lists `throw` among the operations that
yield the retained original and synthesize nothing, but at an `Error` with
retained handle `1` the `throw` method synthesizes a fresh exception object
(a `createError` call appears; `napi_get_reference_value` is never called)
and throws the synthesized value `13`, not the reference-resolved value. -/
theorem C2_counterexample :
    (JsError.throw sysOk ErrKind.generic
        { status := Status.GenericFailure, reason := "", maybe_raw := 1, maybe_env := 1 } 1).2 =
      [FCall.createStringUtf8 1 "GenericFailure\x00", FCall.createStringUtf8 1 "",
       FCall.createError ErrKind.generic 1 11 11, FCall.napiThrow 1 13] ∧
    synthesizesNone (JsError.throw sysOk ErrKind.generic
        { status := Status.GenericFailure, reason := "", maybe_raw := 1, maybe_env := 1 } 1).2
      = false := by
  decide

/-- C2 (amended): for every ErrorValue whose retained exception is present
(`maybe_raw ≠ 0`), `into_value`, `to_napi_value` and `throw_into` preserve
identity — they yield the handle resolved from the persistent reference and
synthesize no new exception object; the `throw` method is excluded (it
always synthesizes, see the counterexample). -/
theorem C2_identity_preservation (sys : Sys) (dbg : Bool) (k : ErrKind) (e : Error)
    (env : Nat) (h : e.maybe_raw ≠ 0) :
    (JsError.into_value sys k e env).1 = sys.getReferenceValueResult env e.maybe_raw ∧
    synthesizesNone (JsError.into_value sys k e env).2 = true ∧
    synthesizesNone (Error.to_napi_value sys env e).2 = true ∧
    (sys.getReferenceValueStatus e.maybe_env e.maybe_raw = napi_ok →
      (Error.to_napi_value sys env e).1 =
        Except.ok (sys.getReferenceValueResult e.maybe_env e.maybe_raw)) ∧
    synthesizesNone (JsError.throw_into sys dbg k e env) = true ∧
    (e.status ≠ Status.PendingException →
      JsError.throw_into sys dbg k e env =
        FCall.getReferenceValue env e.maybe_raw ::
          (if dbg then
            [FCall.napiThrow env (sys.getReferenceValueResult env e.maybe_raw),
             FCall.napiThrow env (sys.getReferenceValueResult env e.maybe_raw)]
           else [FCall.napiThrow env (sys.getReferenceValueResult env e.maybe_raw)])) := by
  have h0 : ¬ e.maybe_raw = 0 := h
  refine ⟨?_, ?_, ?_, ?_, ?_, ?_⟩
  · simp [JsError.into_value, h]
  · simp [JsError.into_value, h, synthesizesNone]
  · simp only [Error.to_napi_value, if_neg h0]
    split <;> simp [synthesizesNone]
  · intro hok
    simp [Error.to_napi_value, h0, hok]
  · simp only [JsError.throw_into]
    split
    · simp [synthesizesNone]
    · simp [JsError.into_value, h, synthesizesNone]
      split <;> simp [synthesizesNone]
  · intro hp
    simp [JsError.throw_into, JsError.into_value, h, hp]

/-- C2 witness: the amended identity-preservation theorem applied at a
concrete retained error under the all-successful oracle. -/
theorem C2_identity_preservation_witness :
    (JsError.into_value sysOk ErrKind.generic
        { status := Status.Ok, reason := "", maybe_raw := 3, maybe_env := 2 } 2).1 = 5 ∧
    JsError.throw_into sysOk false ErrKind.generic
        { status := Status.Ok, reason := "", maybe_raw := 3, maybe_env := 2 } 2 =
      [FCall.getReferenceValue 2 3, FCall.napiThrow 2 5] := by
  have h := C2_identity_preservation sysOk false ErrKind.generic
      { status := Status.Ok, reason := "", maybe_raw := 3, maybe_env := 2 } 2 (by decide)
  exact ⟨h.1, h.2.2.2.2.2 (by decide)⟩

/-- C3 counterexample: the claim says both `throw_into` and `throw` skip
throwing on pending-exception status, but at
`Error::from_status(PendingException)` the `throw` method still invokes
`napi_throw` (it performs no pending check at all). -/
theorem C3_counterexample :
    (JsError.throw sysOk ErrKind.generic (Error.from_status Status.PendingException) 1).2 =
      [FCall.createStringUtf8 1 "PendingException\x00", FCall.createStringUtf8 1 "",
       FCall.createError ErrKind.generic 1 11 11, FCall.napiThrow 1 13] ∧
    FCall.napiThrow 1 13 ∈
      (JsError.throw sysOk ErrKind.generic (Error.from_status Status.PendingException) 1).2 := by
  decide

/-- C3 (amended): for every ErrorValue whose status is the pending-exception
classification, `throw_into` performs no host-visible call at all (including
no `napi_throw`); the `throw` method is excluded — it throws regardless. -/
theorem C3_no_rethrow_on_pending (sys : Sys) (dbg : Bool) (k : ErrKind) (e : Error)
    (env : Nat) (h : e.status = Status.PendingException) :
    JsError.throw_into sys dbg k e env = [] := by
  simp [JsError.throw_into, h]

/-- C3 witness: `throw_into` at a concrete pending-exception error issues no
foreign call. -/
theorem C3_no_rethrow_on_pending_witness :
    JsError.throw_into sysOk true ErrKind.generic
      (Error.from_status Status.PendingException) 3 = [] :=
  C3_no_rethrow_on_pending sysOk true ErrKind.generic
    (Error.from_status Status.PendingException) 3 rfl

/-- C4: evaluation at the failing input.  An un-retained `InvalidArg` error
thrown through the generic wrapper synthesizes the exception with code text
equal to the rendered status and message equal to the empty reason, but a
debug-assertions build invokes `napi_throw` twice (once under
`cfg(debug_assertions)`, then once unconditionally), while a release build
invokes it exactly once — the claim's "exactly once" fails in debug
builds. -/
theorem C4_throw_count :
    JsError.throw_into sysOk true ErrKind.generic (Error.from_status Status.InvalidArg) 1 =
      [FCall.createStringUtf8 1 "InvalidArg", FCall.createStringUtf8 1 "",
       FCall.createError ErrKind.generic 1 11 11,
       FCall.napiThrow 1 13, FCall.napiThrow 1 13] ∧
    JsError.throw_into sysOk false ErrKind.generic (Error.from_status Status.InvalidArg) 1 =
      [FCall.createStringUtf8 1 "InvalidArg", FCall.createStringUtf8 1 "",
       FCall.createError ErrKind.generic 1 11 11, FCall.napiThrow 1 13] := by
  decide

/-- C5 counterexample: wrapping a host value issues
`napi_create_reference(env, value, 0, ..)` with initial reference count `0`,
so the retention increment over the whole wrap trace is `0` — the wrap does
not increment the foreign runtime's retention count for the value
(a count-0 reference is weak and does not keep the value alive). -/
theorem C5_counterexample :
    (Error.fromJsUnknown sysOk { env := 2, value := 9 }).2 =
      [FCall.createReference 2 9 0] ∧
    ((Error.fromJsUnknown sysOk { env := 2, value := 9 }).2.map retentionIncrement).sum
      = 0 := by
  decide

/-- C5 (amended): wrapping a host value creates a reference with initial
count `0` (no retention increment) and, when the creation call succeeds,
stores the returned reference handle paired with the value's execution
context, with status `GenericFailure` and empty reason. -/
theorem C5_wrap_stores_pair (sys : Sys) (v : JsUnknown)
    (h : sys.createReferenceStatus v.env v.value 0 = napi_ok) :
    (Error.fromJsUnknown sys v).1 =
      { status := Status.GenericFailure, reason := "",
        maybe_raw := sys.createReferenceResult v.env v.value 0, maybe_env := v.env } ∧
    (Error.fromJsUnknown sys v).2 = [FCall.createReference v.env v.value 0] := by
  simp [Error.fromJsUnknown, h]

/-- C5 witness: the amended wrap theorem at a concrete value under the
all-successful oracle. -/
theorem C5_wrap_stores_pair_witness :
    (Error.fromJsUnknown sysOk { env := 2, value := 9 }).1 =
      { status := Status.GenericFailure, reason := "", maybe_raw := 7, maybe_env := 2 } ∧
    (Error.fromJsUnknown sysOk { env := 2, value := 9 }).2 =
      [FCall.createReference 2 9 0] :=
  C5_wrap_stores_pair sysOk { env := 2, value := 9 } rfl

/-- C6 counterexample: when `napi_create_reference` fails with
`napi_invalid_arg`, the returned ErrorValue has status `InvalidArg` — the
status of the failed call — not the generic-failure status the claim
requires. -/
theorem C6_counterexample :
    (Error.fromJsUnknown sysRefFail { env := 2, value := 9 }).1 =
      { status := Status.InvalidArg, reason := "", maybe_raw := 0, maybe_env := 0 } ∧
    Status.InvalidArg ≠ Status.GenericFailure := by
  decide

/-- C6 (amended): when the reference-creation call fails, the returned
ErrorValue is `Error::new(Status::from(failing status), "")` — it carries
the failed call's status (generic-failure only when that call failed with
generic-failure), an empty reason, and no retained handle. -/
theorem C6_degraded_wrap (sys : Sys) (v : JsUnknown)
    (h : sys.createReferenceStatus v.env v.value 0 ≠ napi_ok) :
    (Error.fromJsUnknown sys v).1 =
      Error.new (statusFrom (sys.createReferenceStatus v.env v.value 0)) "" ∧
    (Error.fromJsUnknown sys v).1.maybe_raw = 0 ∧
    (Error.fromJsUnknown sys v).1.maybe_env = 0 ∧
    (Error.fromJsUnknown sys v).1.reason = "" := by
  simp [Error.fromJsUnknown, h, Error.new]

/-- C6 witness: the degraded-wrap theorem at a concrete value under the
oracle whose reference creation fails with `napi_invalid_arg`. -/
theorem C6_degraded_wrap_witness :
    (Error.fromJsUnknown sysRefFail { env := 2, value := 9 }).1 =
      Error.new (statusFrom napi_invalid_arg) "" ∧
    (Error.fromJsUnknown sysRefFail { env := 2, value := 9 }).1.maybe_raw = 0 ∧
    (Error.fromJsUnknown sysRefFail { env := 2, value := 9 }).1.maybe_env = 0 ∧
    (Error.fromJsUnknown sysRefFail { env := 2, value := 9 }).1.reason = "" :=
  C6_degraded_wrap sysRefFail { env := 2, value := 9 } (by decide)

/-- C7: the pending-exception-check construct.  On the pending-exception
code it retrieves and clears exactly one pending exception, wraps it in an
ErrorValue and early-returns it; on the success code it proceeds and issues
no foreign call; on any other code it evaluates to a plain ErrorValue with
that status, without early return and without touching the
pending-exception machinery.  The hypothesis states that the asserted
`napi_get_and_clear_last_exception` call succeeds. -/
theorem C7_check_pending_exception (sys : Sys) (env c : Nat)
    (hclear : sys.getAndClearStatus env = napi_ok) :
    (c = napi_pending_exception →
      (check_pending_exception sys env c).2.count (FCall.getAndClearLastException env) = 1 ∧
      (check_pending_exception sys env c).1 =
        CheckOutcome.earlyReturn
          (Error.fromJsUnknown sys { env := env, value := sys.getAndClearResult env }).1) ∧
    (c = napi_ok →
      (check_pending_exception sys env c).1 = CheckOutcome.proceed ∧
      (check_pending_exception sys env c).2 = []) ∧
    (c ≠ napi_ok → c ≠ napi_pending_exception →
      (check_pending_exception sys env c).1 =
        CheckOutcome.errValue (Error.new (statusFrom c) "") ∧
      (check_pending_exception sys env c).2 = []) := by
  refine ⟨?_, ?_, ?_⟩
  · intro hc
    subst hc
    simp [check_pending_exception, hclear, Error.fromJsUnknown,
      napi_pending_exception, napi_ok, List.count_cons]
    split <;> simp [List.count_cons]
  · intro hc
    subst hc
    simp [check_pending_exception]
  · intro h1 h2
    simp [check_pending_exception, h1, h2]

/-- C7 witness: the pending-exception-check theorem applied at the concrete
pending-exception code under the all-successful oracle. -/
theorem C7_check_pending_exception_witness :
    (check_pending_exception sysOk 2 napi_pending_exception).2.count
      (FCall.getAndClearLastException 2) = 1 ∧
    (check_pending_exception sysOk 2 napi_pending_exception).1 =
      CheckOutcome.earlyReturn
        (Error.fromJsUnknown sysOk { env := 2, value := 17 }).1 :=
  (C7_check_pending_exception sysOk 2 napi_pending_exception rfl).1 rfl

/-- C8: errors built by `new`/`from_status`/`from_reason` are self-contained:
both raw fields are null, dropping them performs no foreign call, and the
Display rendering is a pure function of status and reason. -/
theorem C8_self_contained (s : Status) (r : String) :
    (Error.new s r).maybe_raw = 0 ∧ (Error.new s r).maybe_env = 0 ∧
    (Error.from_status s).maybe_raw = 0 ∧ (Error.from_status s).maybe_env = 0 ∧
    (Error.from_reason r).maybe_raw = 0 ∧ (Error.from_reason r).maybe_env = 0 ∧
    Error.dropCalls (Error.new s r) = [] ∧
    Error.dropCalls (Error.from_status s) = [] ∧
    Error.dropCalls (Error.from_reason r) = [] ∧
    Error.display (Error.new s r) =
      (if r ≠ "" then statusDebug s ++ ", " ++ r else statusDebug s) := by
  simp [Error.new, Error.from_status, Error.from_reason, Error.dropCalls, Error.display]

/-- C10: the Display rendering of an ErrorValue is the debug rendering of
its status alone when the reason is empty, and the debug rendering of the
status followed by ", " and the reason when the reason is non-empty. -/
theorem C10_display (e : Error) :
    (e.reason = "" → Error.display e = statusDebug e.status) ∧
    (e.reason ≠ "" → Error.display e = statusDebug e.status ++ ", " ++ e.reason) := by
  constructor
  · intro h
    simp [Error.display, h]
  · intro h
    simp [Error.display, h]

/-- C10 witness: the Display theorem at a concrete empty-reason error and a
concrete non-empty-reason error. -/
theorem C10_display_witness :
    Error.display { status := Status.InvalidArg, reason := "", maybe_raw := 0, maybe_env := 0 } =
      statusDebug Status.InvalidArg ∧
    Error.display { status := Status.InvalidArg, reason := "boom", maybe_raw := 0, maybe_env := 0 } =
      statusDebug Status.InvalidArg ++ ", " ++ "boom" := by
  constructor
  · exact (C10_display
      { status := Status.InvalidArg, reason := "", maybe_raw := 0, maybe_env := 0 }).1 rfl
  · exact (C10_display
      { status := Status.InvalidArg, reason := "boom", maybe_raw := 0, maybe_env := 0 }).2
      (by decide)

end Napi
